import Mathlib

/-!
Verification of the fraud-detection feature-store notebook and the
tuning-step pipeline notebook.

The development shallowly embeds the code of the two notebooks:

* `FraudDetection`: the data-preparation / feature-store notebook
  (feature-group creation with its `ResourceInUse` handler, the
  `wait_for_feature_group_creation_complete` poller, the offline-store
  availability loop, the Athena join-query assembly, and the
  train/test split).
* `TuningPipeline`: the SageMaker pipeline notebook (the condition
  step on the evaluation MSE and the step dependency graph).

Remote calls are modelled by passing their observable responses
explicitly (e.g. the sequence of statuses successive `describe` calls
return); exceptions are modelled with `Except`.
-/

namespace FraudDetection

/-- Outcome of running `wait_for_feature_group_creation_complete` on a
stubbed sequence of `describe` responses: the first non-`"Creating"`
status observed, the normal/raising result, the number of `describe`
calls made, and the list of `time.sleep` durations performed. -/
structure WaitOutcome where
  finalStatus : String
  result : Except String Unit
  polls : Nat
  sleeps : List Nat

/-- The `while status == "Creating"` loop body: consume stubbed
`describe` statuses until a non-`"Creating"` one appears.  Returns the
terminal status, the number of `describe` calls, and the sleeps
(`time.sleep(5)` before each repeated call); `none` if the stub list
is exhausted while still `"Creating"` (the loop would keep polling). -/
def fgWaitLoop : List String → Option (String × Nat × List Nat)
  | [] => none
  | s :: rest =>
    if s = "Creating" then
      (fgWaitLoop rest).map (fun r => (r.1, r.2.1 + 1, 5 :: r.2.2))
    else
      some (s, 1, [])

/-- `wait_for_feature_group_creation_complete(feature_group)`: poll
`describe` while the status is `"Creating"`, then raise
`RuntimeError(f"Failed to create feature group {feature_group.name}")`
unless the final status is `"Created"`. -/
def wait_for_feature_group_creation_complete (name : String)
    (statuses : List String) : Option WaitOutcome :=
  (fgWaitLoop statuses).map (fun r =>
    { finalStatus := r.1
      result :=
        if r.1 ≠ "Created" then
          Except.error ("Failed to create feature group " ++ name)
        else
          Except.ok ()
      polls := r.2.1
      sleeps := r.2.2 })

/-- The guard of the offline-store wait loop:
`"Contents" in objects_in_bucket and len(objects_in_bucket["Contents"]) > 1`.
A `list_objects` response is modelled as `none` (no `"Contents"` key)
or `some objs` (the object list under `"Contents"`). -/
def offlineCond : Option (List String) → Bool
  | some objs => decide (1 < objs.length)
  | none => false

/-- The `while offline_store_contents is None` loop, fuel-bounded:
`polls i` is the response of the `i`-th `list_objects` call.  On exit
it returns the assigned `offline_store_contents` together with the
performed `time.sleep(60)` durations; `none` means the fuel ran out
with the loop still spinning. -/
def offlineWaitAux (polls : Nat → Option (List String)) :
    Nat → Nat → Option (List String × List Nat)
  | _, 0 => none
  | i, fuel + 1 =>
    match polls i with
    | some objs =>
      if 1 < objs.length then
        some (objs, [])
      else
        (offlineWaitAux polls (i + 1) fuel).map (fun r => (r.1, 60 :: r.2))
    | none =>
      (offlineWaitAux polls (i + 1) fuel).map (fun r => (r.1, 60 :: r.2))

/-- An AWS client error as the notebook inspects it:
`e.response.get("Error").get("Code")`. -/
structure AwsError where
  code : String

/-- The `try/except` around `claims_feature_group.create(...)` (the one
around `customers_feature_group.create` is identical): an exception
whose error code is `"ResourceInUse"` is swallowed and the existing
feature group is used (result `false`); any other exception is
re-raised unchanged; a successful call creates the group (`true`). -/
def create_feature_group_guarded (call : Except AwsError Unit) :
    Except AwsError Bool :=
  match call with
  | Except.ok _ => Except.ok true
  | Except.error e =>
    if e.code = "ResourceInUse" then Except.ok false else Except.error e

/-- The bare `except:` in the cell loading `claims_preprocessed` /
`customers_preprocessed`: any failure of the Data Wrangler S3 load
(modelled by its error) makes the notebook fall back to the local
pre-made CSV dataframes. -/
def load_preprocessed_data (wrangler : Except AwsError (List String))
    (localData : List String) : Except AwsError (List String) :=
  match wrangler with
  | Except.ok d => Except.ok d
  | Except.error _ => Except.ok localData

/-- The `try: sagemaker_role = sagemaker.get_execution_role() except
ValueError:` cell: a `ValueError` is swallowed and the role is fetched
from the configured IAM role name instead. -/
def resolve_sagemaker_role (primary : Except Unit String)
    (fallbackArn : String) : String :=
  match primary with
  | Except.ok r => r
  | Except.error _ => fallbackArn

/-- Arguments of a `FeatureGroup.ingest` call as issued by the
notebook. -/
structure IngestCall where
  max_workers : Nat
  wait : Bool

/-- `claims_feature_group.ingest(data_frame=claims_preprocessed,
max_workers=3, wait=True)`. -/
def claims_ingest : IngestCall := { max_workers := 3, wait := true }

/-- `customers_feature_group.ingest(data_frame=customers_preprocessed,
max_workers=3, wait=True)`. -/
def customers_ingest : IngestCall := { max_workers := 3, wait := true }

/-- The keys of the `claims_dtypes` dictionary: the declared columns of
the claims dataframe. -/
def claims_dtypes_keys : List String :=
  ["policy_id", "incident_severity", "num_vehicles_involved", "num_injuries",
   "num_witnesses", "police_report_available", "injury_claim", "vehicle_claim",
   "total_claim_amount", "incident_month", "incident_day", "incident_dow",
   "incident_hour", "fraud", "driver_relationship_self",
   "driver_relationship_na", "driver_relationship_spouse",
   "driver_relationship_child", "driver_relationship_other",
   "incident_type_collision", "incident_type_breakin", "incident_type_theft",
   "collision_type_front", "collision_type_rear", "collision_type_side",
   "collision_type_na", "authorities_contacted_police",
   "authorities_contacted_none", "authorities_contacted_fire",
   "authorities_contacted_ambulance", "event_time"]

/-- The keys of the `customers_dtypes` dictionary: the declared columns
of the customers dataframe. -/
def customers_dtypes_keys : List String :=
  ["policy_id", "customer_age", "customer_education", "months_as_customer",
   "policy_deductable", "policy_annual_premium", "policy_liability",
   "auto_year", "num_claims_past_year", "num_insurers_past_5_years",
   "customer_gender_male", "customer_gender_female", "policy_state_ca",
   "policy_state_wa", "policy_state_az", "policy_state_or", "policy_state_nv",
   "policy_state_id", "event_time"]

/-- `feature_columns = list(set(claims_preprocessed.columns) ^
set(customers_preprocessed.columns))`: the symmetric difference of the
two column sets (one listing order fixed; Python's `set` makes the
order arbitrary and the elements unique). -/
def feature_columns (claimsCols customersCols : List String) : List String :=
  claimsCols.filter (fun c => decide (c ∉ customersCols)) ++
    customersCols.filter (fun c => decide (c ∉ claimsCols))

/-- The `f'"{c}"'` quoting applied to each select item.  Assembled
text is embedded at the character-list level (`String.data`), so the
query pieces below are `List Char`. -/
def quoteIdent (c : String) : List Char := '"' :: (c.data ++ ['"'])

/-- Python's `", ".join`. -/
def joinCommaSpace : List (List Char) → List Char
  | [] => []
  | [c] => c
  | c :: cs => c ++ ',' :: ' ' :: joinCommaSpace cs

/-- `feature_columns_string`: the joined quoted feature columns behind
the aliased `policy_id` item; note the `", "` that is part of the
leading f-string literal and therefore always present. -/
def feature_columns_string (claims_table : String)
    (claimsCols customersCols : List String) : List Char :=
  quoteIdent claims_table ++ (".policy_id as policy_id, ").data ++
    joinCommaSpace ((feature_columns claimsCols customersCols).map quoteIdent)

/-- The triple-quoted `query_string` f-string assembling the Athena
`SELECT DISTINCT ... FROM ... LEFT JOIN ... ON ...` join query. -/
def query_string (claims_table customers_table : String)
    (claimsCols customersCols : List String) : List Char :=
  ("\nSELECT DISTINCT ").data ++
      feature_columns_string claims_table claimsCols customersCols ++
    ("\nFROM ").data ++ quoteIdent claims_table ++ (" LEFT JOIN ").data ++
      quoteIdent customers_table ++ (" ").data ++
    ("\nON ").data ++ quoteIdent claims_table ++ (".policy_id = ").data ++
      quoteIdent customers_table ++ (".policy_id\n").data

/-- Characters allowed in an unquoted SQL identifier. -/
def isIdentChar (c : Char) : Bool := c.isAlpha || c.isDigit || c = '_'

/-- A nonempty run of identifier characters. -/
def isIdentL (s : List Char) : Bool := decide (s ≠ []) && s.all isIdentChar

/-- Split a character list at every newline. -/
def splitNl : List Char → List (List Char)
  | [] => [[]]
  | c :: rest =>
    if c = '\n' then [] :: splitNl rest
    else
      match splitNl rest with
      | [] => [[c]]
      | t :: ts => (c :: t) :: ts

/-- Split a character list at every `", "` separator; a trailing
separator yields a trailing empty item. -/
def splitCommaSpace : List Char → List (List Char)
  | [] => [[]]
  | [c] => [[c]]
  | c :: d :: rest =>
    if c = ',' ∧ d = ' ' then
      [] :: splitCommaSpace rest
    else
      match splitCommaSpace (d :: rest) with
      | [] => [[c]]
      | t :: ts => (c :: t) :: ts

/-- Consume an exact literal from the front of a character list. -/
def dropLit : List Char → List Char → Option (List Char)
  | [], rest => some rest
  | _ :: _, [] => none
  | p :: ps, c :: cs => if c = p then dropLit ps cs else none

/-- Longest identifier-character run at the front of a list, with the
remainder. -/
def takeIdentChars : List Char → List Char × List Char
  | [] => ([], [])
  | c :: cs =>
    if isIdentChar c then
      (c :: (takeIdentChars cs).1, (takeIdentChars cs).2)
    else
      ([], c :: cs)

/-- Read a double-quoted nonempty identifier `"ident"` from the front
of a character list, returning it with the remainder. -/
def readQuotedIdent (l : List Char) : Option (List Char × List Char) :=
  match l with
  | [] => none
  | c :: rest =>
    if c = '"' then
      let t := takeIdentChars rest
      if t.1 = [] then none
      else
        match t.2 with
        | [] => none
        | d :: rest2 => if d = '"' then some (t.1, rest2) else none
    else none

/-- A well-formed select item: a double-quoted identifier, optionally
followed by the `.policy_id as policy_id` alias suffix the query puts
on the claims table.  The empty item produced by a dangling comma is
rejected. -/
def selectItemOK (item : List Char) : Bool :=
  match readQuotedIdent item with
  | some r =>
    decide (r.2 = []) || decide (r.2 = (".policy_id as policy_id").data)
  | none => false

/-- A well-formed `SELECT DISTINCT` line: the keyword followed by a
comma-separated list of well-formed select items. -/
def selectClauseOK (l : List Char) : Bool :=
  match dropLit ("SELECT DISTINCT ").data l with
  | some sel => (splitCommaSpace sel).all selectItemOK
  | none => false

/-- A well-formed `FROM "t1" LEFT JOIN "t2" ` line. -/
def fromClauseOK (l : List Char) : Bool :=
  match dropLit ("FROM ").data l with
  | some r1 =>
    match readQuotedIdent r1 with
    | some t1 =>
      match dropLit (" LEFT JOIN ").data t1.2 with
      | some r2 =>
        match readQuotedIdent r2 with
        | some t2 => decide (t2.2 = [' '])
        | none => false
      | none => false
    | none => false
  | none => false

/-- A well-formed `ON "t1".policy_id = "t2".policy_id` line. -/
def onClauseOK (l : List Char) : Bool :=
  match dropLit ("ON ").data l with
  | some r1 =>
    match readQuotedIdent r1 with
    | some t1 =>
      match dropLit (".policy_id = ").data t1.2 with
      | some r2 =>
        match readQuotedIdent r2 with
        | some t2 => decide (t2.2 = (".policy_id").data)
        | none => false
      | none => false
    | none => false
  | none => false

/-- Syntactic well-formedness of the assembled query: an empty leading
and trailing line around exactly a select line, a from/join line and
an on line. -/
def queryOK (q : List Char) : Bool :=
  match splitNl q with
  | [l0, l1, l2, l3, l4] =>
    decide (l0 = []) && selectClauseOK l1 && fromClauseOK l2 &&
      onClauseOK l3 && decide (l4 = [])
  | _ => false

/-- A dataframe, abstracted to its column names and row index labels
(cell values play no role in the claims about the split). -/
structure DFrame where
  cols : List String
  index : List Nat

/-- `dataset.sample(frac=0.80, random_state=0)`: pandas selects a
pseudo-random subset of the row labels; the selected labels are passed
in explicitly. -/
def sample (d : DFrame) (sampled : List Nat) : DFrame :=
  { cols := d.cols, index := sampled }

/-- `dataset.drop(labels)`: drop the rows with the given labels,
keeping the order of the remaining rows. -/
def dropIndex (d : DFrame) (labels : List Nat) : DFrame :=
  { cols := d.cols, index := d.index.filter (fun i => decide (i ∉ labels)) }

/-- `dataset.drop(["fraud", "policy_id"], axis=1).columns`. -/
def dropFraudPolicyCols (d : DFrame) : List String :=
  d.cols.filter (fun c => decide (c ≠ "fraud") && decide (c ≠ "policy_id"))

/-- `col_order = ["fraud"] + list(dataset.drop(["fraud", "policy_id"],
axis=1).columns)`. -/
def col_order (d : DFrame) : List String :=
  "fraud" :: dropFraudPolicyCols d

/-- `df[cols]`: column re-selection / re-ordering. -/
def selectCols (d : DFrame) (cols : List String) : DFrame :=
  { cols := cols, index := d.index }

/-- `train = dataset.sample(frac=0.80, random_state=0)[col_order]`. -/
def train (dataset : DFrame) (sampled : List Nat) : DFrame :=
  selectCols (sample dataset sampled) (col_order dataset)

/-- `test = dataset.drop(train.index)[col_order]`. -/
def test (dataset : DFrame) (sampled : List Nat) : DFrame :=
  selectCols (dropIndex dataset (train dataset sampled).index)
    (col_order dataset)

end FraudDetection

namespace TuningPipeline

/-- The right-hand side of `ConditionLessThanOrEqualTo`: the literal
`6.0`.  The metric and threshold are exact decimals, modelled in `ℚ`. -/
def mse_threshold : ℚ := 6

/-- `cond_lte = ConditionLessThanOrEqualTo(left=JsonGet(... json_path=
"regression_metrics.mse.value"), right=6.0)`, evaluated on the metric
value read from the evaluation report. -/
def cond_lte (mse : ℚ) : Bool := decide (mse ≤ mse_threshold)

/-- `step_register_best = ModelStep(name="RegisterBestAbaloneModel", ...)`. -/
def step_register_best : String := "RegisterBestAbaloneModel"

/-- `if_steps=[step_register_best]` of the `ConditionStep`. -/
def step_cond_if_steps : List String := [step_register_best]

/-- `else_steps=[]` of the `ConditionStep`. -/
def step_cond_else_steps : List String := []

/-- The branch the `ConditionStep` named
`"CheckMSEAbaloneEvaluation"` selects for a given metric value. -/
def step_cond_selected_steps (mse : ℚ) : List String :=
  if cond_lte mse then step_cond_if_steps else step_cond_else_steps

/-- The `steps=[...]` list of `Pipeline(name="tuning-step-pipeline", ...)`,
by step name and in declared order. -/
def pipeline_step_names : List String :=
  ["PreprocessAbaloneDataForHPO", "HPTuning", "CreateBestModel",
   "CreateSecondBestModel", "EvaluateTopModel", "CheckMSEAbaloneEvaluation"]

/-- A reference to a declared output of another step. -/
structure StepRef where
  step : String
  output : String
deriving DecidableEq

/-- Declared outputs per step: the `ProcessingOutput` names of the
preprocess step, the top-`k` model artifacts of the tuning step
(`get_top_model_s3_uri(top_k=0)` and `top_k=1`), and the `evaluation`
processing output / property file of the evaluation step. -/
def step_outputs : String → List String
  | "PreprocessAbaloneDataForHPO" => ["train", "validation", "test"]
  | "HPTuning" => ["top_model_0", "top_model_1"]
  | "EvaluateTopModel" => ["evaluation"]
  | _ => []

/-- Upstream data dependencies declared in the source: the tuning
step's `TrainingInput`s read the preprocess step's `train` and
`validation` outputs; both model-creation steps read a tuning-step
top-model artifact; the evaluation step reads the tuning step's top
model and the preprocess step's `test` output; the condition step's
`JsonGet` reads the evaluation step's property file. -/
def step_dependencies : String → List StepRef
  | "HPTuning" =>
    [{ step := "PreprocessAbaloneDataForHPO", output := "train" },
     { step := "PreprocessAbaloneDataForHPO", output := "validation" }]
  | "CreateBestModel" => [{ step := "HPTuning", output := "top_model_0" }]
  | "CreateSecondBestModel" => [{ step := "HPTuning", output := "top_model_1" }]
  | "EvaluateTopModel" =>
    [{ step := "HPTuning", output := "top_model_0" },
     { step := "PreprocessAbaloneDataForHPO", output := "test" }]
  | "CheckMSEAbaloneEvaluation" =>
    [{ step := "EvaluateTopModel", output := "evaluation" }]
  | _ => []

end TuningPipeline

namespace FraudDetection

/-- Invariant of the `while status == "Creating"` loop: the returned
status is never `"Creating"`, at least one `describe` call is made,
and a `5`-second sleep separates every pair of successive calls. -/
theorem fgWaitLoop_spec : ∀ (statuses : List String)
    (r : String × Nat × List Nat),
    fgWaitLoop statuses = some r →
    r.1 ≠ "Creating" ∧ 1 ≤ r.2.1 ∧ r.2.2 = List.replicate (r.2.1 - 1) 5 := by
  intro statuses
  induction statuses with
  | nil => intro r h; simp [fgWaitLoop] at h
  | cons hd tl ih =>
    intro r h
    by_cases hc : hd = "Creating"
    · rw [fgWaitLoop, if_pos hc, Option.map_eq_some'] at h
      obtain ⟨a, ha, rfl⟩ := h
      obtain ⟨h1, h2, h3⟩ := ih a ha
      refine ⟨h1, Nat.le_add_left 1 _, ?_⟩
      show 5 :: a.2.2 = List.replicate (a.2.1 + 1 - 1) 5
      rw [h3, Nat.add_sub_cancel]
      have hsplit : a.2.1 = (a.2.1 - 1) + 1 := by omega
      rw [hsplit, List.replicate_succ, Nat.add_sub_cancel]
    · rw [fgWaitLoop, if_neg hc] at h
      obtain rfl := Option.some.inj h
      exact ⟨hc, Nat.le_refl 1, rfl⟩

/-- Invariant of the offline-store wait loop: whenever the loop exits
within the given fuel, all sleeps were exactly `60` seconds, the final
poll satisfied the `Contents`-with-more-than-one-object guard and
produced the stored contents, and every earlier poll failed the
guard. -/
theorem offlineWaitAux_spec (polls : Nat → Option (List String)) :
    ∀ (fuel i : Nat) (r : List String × List Nat),
    offlineWaitAux polls i fuel = some r →
    r.2 = List.replicate r.2.length 60 ∧
    polls (i + r.2.length) = some r.1 ∧ 1 < r.1.length ∧
    (∀ j < r.2.length, offlineCond (polls (i + j)) = false) := by
  intro fuel
  induction fuel with
  | zero => intro i r h; simp [offlineWaitAux] at h
  | succ fuel ih =>
    intro i r h
    unfold offlineWaitAux at h
    cases hp : polls i with
    | some objs =>
      rw [hp] at h
      dsimp only at h
      by_cases hlen : 1 < objs.length
      · rw [if_pos hlen] at h
        obtain rfl := Option.some.inj h
        refine ⟨rfl, ?_, hlen, ?_⟩
        · simpa using hp
        · intro j hj; exact absurd hj (Nat.not_lt_zero j)
      · rw [if_neg hlen, Option.map_eq_some'] at h
        obtain ⟨a, ha, rfl⟩ := h
        obtain ⟨h1, h2, h3, h4⟩ := ih (i + 1) a ha
        refine ⟨?_, ?_, h3, ?_⟩
        · show 60 :: a.2 = List.replicate (60 :: a.2).length 60
          rw [List.length_cons, List.replicate_succ]
          exact congrArg (60 :: ·) h1
        · show polls (i + (a.2.length + 1)) = some a.1
          have harith : i + (a.2.length + 1) = (i + 1) + a.2.length := by omega
          rw [harith]; exact h2
        · intro j hj
          rcases j with _ | j
          · show offlineCond (polls (i + 0)) = false
            rw [Nat.add_zero, hp]
            simp [offlineCond, hlen]
          · have hj' : j < a.2.length := by
              simpa [Nat.succ_lt_succ_iff] using hj
            have harith : i + (j + 1) = (i + 1) + j := by omega
            rw [harith]
            exact h4 j hj'
    | none =>
      rw [hp] at h
      dsimp only at h
      rw [Option.map_eq_some'] at h
      obtain ⟨a, ha, rfl⟩ := h
      obtain ⟨h1, h2, h3, h4⟩ := ih (i + 1) a ha
      refine ⟨?_, ?_, h3, ?_⟩
      · show 60 :: a.2 = List.replicate (60 :: a.2).length 60
        rw [List.length_cons, List.replicate_succ]
        exact congrArg (60 :: ·) h1
      · show polls (i + (a.2.length + 1)) = some a.1
        have harith : i + (a.2.length + 1) = (i + 1) + a.2.length := by omega
        rw [harith]; exact h2
      · intro j hj
        rcases j with _ | j
        · show offlineCond (polls (i + 0)) = false
          rw [Nat.add_zero, hp]; rfl
        · have hj' : j < a.2.length := by
            simpa [Nat.succ_lt_succ_iff] using hj
          have harith : i + (j + 1) = (i + 1) + j := by omega
          rw [harith]
          exact h4 j hj'

/-- If no poll ever satisfies the guard, the offline-store loop spins
for any amount of fuel (it has no failure state and never raises). -/
theorem offlineWaitAux_none (polls : Nat → Option (List String))
    (hall : ∀ i, offlineCond (polls i) = false) :
    ∀ (fuel i : Nat), offlineWaitAux polls i fuel = none := by
  intro fuel
  induction fuel with
  | zero => intro i; rfl
  | succ fuel ih =>
    intro i
    unfold offlineWaitAux
    cases hp : polls i with
    | some objs =>
      have hcond := hall i
      rw [hp] at hcond
      have hlen : ¬ 1 < objs.length := by simpa [offlineCond] using hcond
      dsimp only
      rw [if_neg hlen, ih (i + 1)]; rfl
    | none =>
      dsimp only
      rw [ih (i + 1)]; rfl

end FraudDetection

/-- Claim C1: on the stubbed status sequence
`["Creating", "Creating", "Created"]` the poller returns normally
after exactly three `describe` polls, and on `["Creating", x]` with
`x` neither `"Creating"` nor `"Created"` it raises a `RuntimeError`
whose message names the feature group. -/
theorem C1_poller_stub_sequences (name x : String)
    (h1 : x ≠ "Creating") (h2 : x ≠ "Created") :
    FraudDetection.wait_for_feature_group_creation_complete name
        ["Creating", "Creating", "Created"] =
      some ⟨"Created", Except.ok (), 3, [5, 5]⟩ ∧
    FraudDetection.wait_for_feature_group_creation_complete name
        ["Creating", x] =
      some ⟨x, Except.error ("Failed to create feature group " ++ name),
            2, [5]⟩ := by
  constructor
  · rfl
  · simp [FraudDetection.wait_for_feature_group_creation_complete,
      FraudDetection.fgWaitLoop, h1, h2]

/-- Witness for C1 at concrete inputs: the stub failure status is
`"CreateFailed"` and the feature group is `"fraud-detect-demo-claims"`. -/
theorem C1_poller_stub_sequences_witness :
    FraudDetection.wait_for_feature_group_creation_complete
        "fraud-detect-demo-claims" ["Creating", "Creating", "Created"] =
      some ⟨"Created", Except.ok (), 3, [5, 5]⟩ ∧
    FraudDetection.wait_for_feature_group_creation_complete
        "fraud-detect-demo-claims" ["Creating", "CreateFailed"] =
      some ⟨"CreateFailed",
            Except.error
              ("Failed to create feature group " ++ "fraud-detect-demo-claims"),
            2, [5]⟩ :=
  C1_poller_stub_sequences "fraud-detect-demo-claims" "CreateFailed"
    (by decide) (by decide)

/-- Claim C5: both readiness loops poll with a fixed, constant backoff
interval (5 seconds between feature-group `describe` calls, 60 seconds
between offline-store `list_objects` calls), terminate exactly when
their predicate reports a terminal state, and the feature-group poller
raises an error naming the resource exactly on a failure state. -/
theorem C5_fixed_backoff_polling :
    (∀ (name : String) (statuses : List String) (o : FraudDetection.WaitOutcome),
        FraudDetection.wait_for_feature_group_creation_complete name statuses =
          some o →
        o.sleeps = List.replicate (o.polls - 1) 5 ∧
        o.finalStatus ≠ "Creating" ∧
        (o.result = Except.error ("Failed to create feature group " ++ name) ↔
          o.finalStatus ≠ "Created") ∧
        (o.result = Except.ok () ↔ o.finalStatus = "Created")) ∧
    (∀ (polls : Nat → Option (List String)) (fuel i : Nat)
        (r : List String × List Nat),
        FraudDetection.offlineWaitAux polls i fuel = some r →
        r.2 = List.replicate r.2.length 60 ∧
        FraudDetection.offlineCond (polls (i + r.2.length)) = true) := by
  constructor
  · intro name statuses o h
    rw [FraudDetection.wait_for_feature_group_creation_complete,
      Option.map_eq_some'] at h
    obtain ⟨a, ha, rfl⟩ := h
    obtain ⟨h1, h2, h3⟩ := FraudDetection.fgWaitLoop_spec statuses a ha
    refine ⟨h3, h1, ?_, ?_⟩
    · by_cases hc : a.1 = "Created"
      · simp [hc]
      · simp [hc]
    · by_cases hc : a.1 = "Created"
      · simp [hc]
      · simp [hc]
  · intro polls fuel i r h
    obtain ⟨h1, h2, h3, _⟩ := FraudDetection.offlineWaitAux_spec polls fuel i r h
    refine ⟨h1, ?_⟩
    rw [h2]
    simp [FraudDetection.offlineCond, h3]

/-- Witness for C5: the feature-group poller run on
`["Creating", "Creating", "Created"]` slept twice for 5 seconds, and a
`list_objects` response holding two objects satisfies the exit guard. -/
theorem C5_fixed_backoff_polling_witness :
    (⟨"Created", Except.ok (), 3, [5, 5]⟩ : FraudDetection.WaitOutcome).sleeps =
      List.replicate 2 5 ∧
    FraudDetection.offlineCond (some ["obj0", "obj1"]) = true := by
  have h := C5_fixed_backoff_polling
  constructor
  · exact (h.1 "fraud-detect-demo-claims" ["Creating", "Creating", "Created"]
      ⟨"Created", Except.ok (), 3, [5, 5]⟩ rfl).1
  · exact (h.2 (fun _ => some ["obj0", "obj1"]) 1 0 (["obj0", "obj1"], []) rfl).2

/-- Claim C9: the offline-store wait loop exits exactly when a poll
returns a `Contents` object list with length strictly greater than
one; on a poll sequence where every response fails that guard
(including a store holding exactly one object) it spins forever and
never raises. -/
theorem C9_offline_loop_semantics (polls : Nat → Option (List String)) :
    ((∀ i, FraudDetection.offlineCond (polls i) = false) →
      ∀ fuel i, FraudDetection.offlineWaitAux polls i fuel = none) ∧
    (∀ (fuel i : Nat) (r : List String × List Nat),
      FraudDetection.offlineWaitAux polls i fuel = some r →
      polls (i + r.2.length) = some r.1 ∧ 1 < r.1.length ∧
      ∀ j < r.2.length, FraudDetection.offlineCond (polls (i + j)) = false) := by
  constructor
  · intro hall fuel i
    exact FraudDetection.offlineWaitAux_none polls hall fuel i
  · intro fuel i r h
    obtain ⟨_, h2, h3, h4⟩ := FraudDetection.offlineWaitAux_spec polls fuel i r h
    exact ⟨h2, h3, h4⟩

/-- Witness for C9: with every poll returning exactly one object the
loop is still spinning after 8 iterations, while a poll returning two
objects satisfies the exit guard. -/
theorem C9_offline_loop_semantics_witness :
    FraudDetection.offlineWaitAux (fun _ => some ["part-0"]) 0 8 = none ∧
    (1 : Nat) < (["part-0", "part-1"] : List String).length := by
  constructor
  · exact (C9_offline_loop_semantics (fun _ => some ["part-0"])).1
      (fun i => rfl) 8 0
  · exact ((C9_offline_loop_semantics (fun _ => some ["part-0", "part-1"])).2 1 0
      (["part-0", "part-1"], []) rfl).2.1

/-- Claim C2 counterexample: the condition is
`ConditionLessThanOrEqualTo(..., right=6.0)`, so a stubbed metric
exactly equal to the threshold selects the registration step instead
of skipping it as the claim states. -/
theorem C2_counterexample_equal_metric :
    TuningPipeline.step_cond_selected_steps 6 =
      [TuningPipeline.step_register_best] ∧
    ¬ ((6 : ℚ) < TuningPipeline.mse_threshold) := by
  constructor
  · rfl
  · norm_num [TuningPipeline.mse_threshold]

/-- Claim C2 (amended): the condition step selects the
model-registration step exactly when `regression_metrics.mse.value` is
less than or equal to the threshold 6.0, and the empty else branch
exactly when the metric exceeds 6.0; in particular a metric equal to
the threshold selects registration. -/
theorem C2_condition_branch (mse : ℚ) :
    (TuningPipeline.step_cond_selected_steps mse =
        [TuningPipeline.step_register_best] ↔
      mse ≤ TuningPipeline.mse_threshold) ∧
    (TuningPipeline.step_cond_selected_steps mse = [] ↔
      TuningPipeline.mse_threshold < mse) := by
  simp only [TuningPipeline.step_cond_selected_steps, TuningPipeline.cond_lte,
    TuningPipeline.step_cond_if_steps, TuningPipeline.step_cond_else_steps]
  by_cases h : mse ≤ TuningPipeline.mse_threshold
  · simp [h, not_lt.mpr h]
  · simp [h, not_le.mp h]

/-- Claim C4 counterexample: an exception whose code is not
`"ResourceInUse"` (here `"AccessDenied"`), raised while loading the
Data Wrangler output, is swallowed by the bare `except:` of the
loading cell — exception catching outside the narrow already-exists
detection — rather than propagating to the caller. -/
theorem C4_counterexample_broad_catch :
    FraudDetection.load_preprocessed_data
        (Except.error { code := "AccessDenied" })
        ["claims_preprocessed.csv"] =
      Except.ok ["claims_preprocessed.csv"] ∧
    ({ code := "AccessDenied" } : FraudDetection.AwsError).code ≠
      "ResourceInUse" :=
  ⟨rfl, by decide⟩

/-- Claim C4 (amended): the feature-group creation handler swallows an
exception exactly when its code is `"ResourceInUse"` (continuing with
the existing group) and re-raises any other exception unchanged; in
addition, the preprocessed-data loading cell catches every exception
(falling back to the local CSVs) and the execution-role lookup catches
`ValueError` (falling back to the configured role name). -/
theorem C4_error_handling (e : FraudDetection.AwsError)
    (localData : List String) (arn : String) :
    (FraudDetection.create_feature_group_guarded (Except.error e) =
        Except.error e ↔ e.code ≠ "ResourceInUse") ∧
    (FraudDetection.create_feature_group_guarded (Except.error e) =
        Except.ok false ↔ e.code = "ResourceInUse") ∧
    FraudDetection.create_feature_group_guarded (Except.ok ()) =
      Except.ok true ∧
    FraudDetection.load_preprocessed_data (Except.error e) localData =
      Except.ok localData ∧
    FraudDetection.resolve_sagemaker_role (Except.error ()) arn = arn := by
  refine ⟨?_, ?_, rfl, rfl, rfl⟩
  · unfold FraudDetection.create_feature_group_guarded
    by_cases h : e.code = "ResourceInUse"
    · simp [h]
    · simp [h]
  · unfold FraudDetection.create_feature_group_guarded
    by_cases h : e.code = "ResourceInUse"
    · simp [h]
    · simp [h]

/-- Claim C6: the tuning pipeline declares its steps in the order
preprocess, tuning, create-best-model, create-second-best-model,
evaluate, condition; the tuning step reads the preprocess step's
`train`/`validation` outputs and the condition step reads the evaluate
step's property file; and every declared dependency references a
declared output of a strictly earlier step of the list (no forward
reference). -/
theorem C6_pipeline_dag :
    TuningPipeline.pipeline_step_names =
      ["PreprocessAbaloneDataForHPO", "HPTuning", "CreateBestModel",
       "CreateSecondBestModel", "EvaluateTopModel",
       "CheckMSEAbaloneEvaluation"] ∧
    TuningPipeline.step_dependencies "HPTuning" =
      [{ step := "PreprocessAbaloneDataForHPO", output := "train" },
       { step := "PreprocessAbaloneDataForHPO", output := "validation" }] ∧
    TuningPipeline.step_dependencies "CheckMSEAbaloneEvaluation" =
      [{ step := "EvaluateTopModel", output := "evaluation" }] ∧
    (TuningPipeline.pipeline_step_names.all (fun s =>
      (TuningPipeline.step_dependencies s).all (fun d =>
        (TuningPipeline.step_outputs d.step).contains d.output &&
          decide (TuningPipeline.pipeline_step_names.indexOf d.step <
            TuningPipeline.pipeline_step_names.indexOf s)))) = true := by
  refine ⟨rfl, rfl, rfl, ?_⟩
  decide

/-- Claim C7 counterexample: the claims feature-store ingestion call
requests `max_workers=3`, i.e. three local worker threads, so the
program does request local concurrency. -/
theorem C7_counterexample_ingest_workers :
    FraudDetection.claims_ingest.max_workers = 3 ∧
    1 < FraudDetection.claims_ingest.max_workers :=
  ⟨rfl, by decide⟩

/-- Claim C7 (amended): operations block synchronously (both ingest
calls pass `wait=True`), but the two feature-store ingest calls each
request 3 local worker threads (`max_workers=3`); they are the only
operations requesting local concurrency. -/
theorem C7_ingest_concurrency :
    FraudDetection.claims_ingest =
      { max_workers := 3, wait := true } ∧
    FraudDetection.customers_ingest =
      { max_workers := 3, wait := true } :=
  ⟨rfl, rfl⟩

/-- Claim C10: for every joined dataset and sampled row subset, the
train and test dataframes partition the dataset's index (disjoint
index sets whose union is the dataset's index set), and both are
reordered to place the `fraud` column first and to exclude the
`policy_id` column while keeping all other columns. -/
theorem C10_train_test_partition (dataset : FraudDetection.DFrame)
    (sampled : List Nat) (hsub : ∀ i ∈ sampled, i ∈ dataset.index) :
    (∀ i, i ∈ (FraudDetection.train dataset sampled).index →
      i ∉ (FraudDetection.test dataset sampled).index) ∧
    (∀ i, i ∈ dataset.index ↔
      (i ∈ (FraudDetection.train dataset sampled).index ∨
        i ∈ (FraudDetection.test dataset sampled).index)) ∧
    (FraudDetection.train dataset sampled).cols =
      "fraud" :: FraudDetection.dropFraudPolicyCols dataset ∧
    (FraudDetection.test dataset sampled).cols =
      (FraudDetection.train dataset sampled).cols ∧
    "policy_id" ∉ (FraudDetection.train dataset sampled).cols ∧
    (∀ c ∈ dataset.cols, c ≠ "policy_id" →
      c ∈ (FraudDetection.train dataset sampled).cols) := by
  refine ⟨?_, ?_, rfl, rfl, ?_, ?_⟩
  · intro i hi hc
    have hi' : i ∈ sampled := hi
    have hc' : i ∈ dataset.index.filter (fun j => decide (j ∉ sampled)) := hc
    rcases List.mem_filter.mp hc' with ⟨-, hdec⟩
    exact (of_decide_eq_true hdec) hi'
  · intro i
    constructor
    · intro hmem
      by_cases hs : i ∈ sampled
      · exact Or.inl hs
      · refine Or.inr ?_
        show i ∈ dataset.index.filter (fun j => decide (j ∉ sampled))
        exact List.mem_filter.mpr ⟨hmem, decide_eq_true hs⟩
    · rintro (hs | ht)
      · exact hsub i hs
      · have ht' : i ∈ dataset.index.filter (fun j => decide (j ∉ sampled)) := ht
        exact (List.mem_filter.mp ht').1
  · show "policy_id" ∉ "fraud" :: FraudDetection.dropFraudPolicyCols dataset
    intro hmem
    rcases List.mem_cons.mp hmem with h | h
    · exact absurd h (by decide)
    · rcases List.mem_filter.mp h with ⟨-, hdec⟩
      rw [Bool.and_eq_true] at hdec
      exact (of_decide_eq_true hdec.2) rfl
  · intro c hc hcp
    show c ∈ "fraud" :: FraudDetection.dropFraudPolicyCols dataset
    by_cases hcf : c = "fraud"
    · subst hcf; exact List.mem_cons_self _ _
    · refine List.mem_cons_of_mem _ (List.mem_filter.mpr ⟨hc, ?_⟩)
      rw [Bool.and_eq_true]
      exact ⟨decide_eq_true hcf, decide_eq_true hcp⟩

/-- Witness for C10 at a concrete dataset of five rows and an 80%
sample of four row labels: the reordered columns keep every column but
`policy_id`, with `fraud` first, and the test split holds exactly the
unsampled row. -/
theorem C10_train_test_partition_witness :
    (FraudDetection.train
        { cols := ["policy_id", "fraud", "customer_age"],
          index := [0, 1, 2, 3, 4] } [1, 3, 0, 2]).cols =
      ["fraud", "customer_age"] ∧
    (FraudDetection.test
        { cols := ["policy_id", "fraud", "customer_age"],
          index := [0, 1, 2, 3, 4] } [1, 3, 0, 2]).index = [4] := by
  have h := C10_train_test_partition
    { cols := ["policy_id", "fraud", "customer_age"], index := [0, 1, 2, 3, 4] }
    [1, 3, 0, 2] (by decide)
  exact ⟨(h.2.2.1).trans (by decide), by decide⟩

namespace FraudDetection

/-- Every character of an identifier run is an identifier character. -/
theorem isIdentL_chars (s : List Char) (hs : isIdentL s = true) :
    ∀ c ∈ s, isIdentChar c = true := by
  rw [isIdentL, Bool.and_eq_true] at hs
  intro c hc
  exact List.all_eq_true.mp hs.2 c hc

/-- An identifier run is nonempty. -/
theorem isIdentL_ne_nil (s : List Char) (hs : isIdentL s = true) : s ≠ [] := by
  rw [isIdentL, Bool.and_eq_true] at hs
  exact of_decide_eq_true hs.1

/-- An identifier character differs from any non-identifier one. -/
theorem ne_of_identChar (c x : Char) (hc : isIdentChar c = true)
    (hx : isIdentChar x = false) : c ≠ x := by
  intro he
  rw [he, hx] at hc
  cases hc

/-- Identifier runs contain no newline. -/
theorem ident_no_nl (s : List Char) (hs : isIdentL s = true) :
    ∀ c ∈ s, c ≠ '\n' :=
  fun c hc => ne_of_identChar c '\n' (isIdentL_chars s hs c hc) (by decide)

/-- Identifier runs contain no comma. -/
theorem ident_no_comma (s : List Char) (hs : isIdentL s = true) :
    ∀ c ∈ s, c ≠ ',' :=
  fun c hc => ne_of_identChar c ',' (isIdentL_chars s hs c hc) (by decide)

/-- `dropLit` consumes an exact literal prefix. -/
theorem dropLit_append (p rest : List Char) :
    dropLit p (p ++ rest) = some rest := by
  induction p with
  | nil => rfl
  | cons c ps ih => simp [dropLit, ih]

/-- `takeIdentChars` stops exactly at the first non-identifier char. -/
theorem takeIdentChars_append (xs : List Char)
    (hxs : ∀ c ∈ xs, isIdentChar c = true) (y : Char) (ys : List Char)
    (hy : isIdentChar y = false) :
    takeIdentChars (xs ++ y :: ys) = (xs, y :: ys) := by
  induction xs with
  | nil => simp [takeIdentChars, hy]
  | cons c cs ih =>
    have hc : isIdentChar c = true := hxs c (List.mem_cons_self c cs)
    have ih' := ih (fun d hd => hxs d (List.mem_cons_of_mem c hd))
    simp [takeIdentChars, hc, ih']

/-- Reading a double-quoted identifier from its literal form. -/
theorem readQuotedIdent_quoted (t : List Char) (ht : isIdentL t = true) :
    ∀ rest, readQuotedIdent ('"' :: (t ++ '"' :: rest)) = some (t, rest) := by
  intro rest
  have htake := takeIdentChars_append t (isIdentL_chars t ht) '"' rest (by decide)
  simp [readQuotedIdent, htake, isIdentL_ne_nil t ht]

/-- A leading newline opens an empty line. -/
theorem splitNl_cons_nl (r : List Char) : splitNl ('\n' :: r) = [] :: splitNl r := by
  simp [splitNl]

/-- `splitNl` leaves a newline-free list whole. -/
theorem splitNl_no_nl (xs : List Char) (h : ∀ c ∈ xs, c ≠ '\n') :
    splitNl xs = [xs] := by
  induction xs with
  | nil => rfl
  | cons c rest ih =>
    have hc : ¬ c = '\n' := h c (List.mem_cons_self c rest)
    have ih' := ih (fun d hd => h d (List.mem_cons_of_mem c hd))
    simp [splitNl, hc, ih']

/-- `splitNl` splits off a newline-free prefix at its closing newline. -/
theorem splitNl_append (xs ys : List Char) (h : ∀ c ∈ xs, c ≠ '\n') :
    splitNl (xs ++ '\n' :: ys) = xs :: splitNl ys := by
  induction xs with
  | nil => simp [splitNl]
  | cons c rest ih =>
    have hc : ¬ c = '\n' := h c (List.mem_cons_self c rest)
    have ih' := ih (fun d hd => h d (List.mem_cons_of_mem c hd))
    simp [splitNl, hc, ih']

/-- `splitCommaSpace` leaves a comma-free list whole. -/
theorem splitCommaSpace_no_comma (xs : List Char) (h : ∀ c ∈ xs, c ≠ ',') :
    splitCommaSpace xs = [xs] := by
  induction xs with
  | nil => rfl
  | cons c rest ih =>
    cases rest with
    | nil => rfl
    | cons d rest2 =>
      have hc : ¬ c = ',' := h c (List.mem_cons_self _ _)
      have ih' := ih (fun e he => h e (List.mem_cons_of_mem c he))
      simp [splitCommaSpace, hc, ih']

/-- `splitCommaSpace` splits at `", "` after a comma-free prefix. -/
theorem splitCommaSpace_append (xs ys : List Char) (h : ∀ c ∈ xs, c ≠ ',') :
    splitCommaSpace (xs ++ ',' :: ' ' :: ys) = xs :: splitCommaSpace ys := by
  induction xs with
  | nil => simp [splitCommaSpace]
  | cons c rest ih =>
    have hc : ¬ c = ',' := h c (List.mem_cons_self _ _)
    have ih' := ih (fun e he => h e (List.mem_cons_of_mem c he))
    cases hr : rest ++ ',' :: ' ' :: ys with
    | nil => simp at hr
    | cons d tail =>
      rw [List.cons_append, hr]
      rw [hr] at ih'
      simp [splitCommaSpace, hc, ih']

/-- Splitting the `", "`-join of comma-free items recovers the items. -/
theorem splitCommaSpace_join (items : List (List Char)) (hne : items ≠ [])
    (h : ∀ s ∈ items, ∀ c ∈ s, c ≠ ',') :
    splitCommaSpace (joinCommaSpace items) = items := by
  induction items with
  | nil => exact absurd rfl hne
  | cons s items2 ih =>
    cases items2 with
    | nil =>
      show splitCommaSpace (joinCommaSpace [s]) = [s]
      exact splitCommaSpace_no_comma s (h s (List.mem_cons_self _ _))
    | cons s2 rest =>
      show splitCommaSpace (s ++ ',' :: ' ' :: joinCommaSpace (s2 :: rest)) = _
      rw [splitCommaSpace_append _ _ (h s (List.mem_cons_self _ _))]
      rw [ih (by simp) (fun u hu c hc => h u (List.mem_cons_of_mem s hu) c hc)]

/-- The characters of a `", "`-join come from the items or from the
separator. -/
theorem mem_joinCommaSpace (items : List (List Char)) (c : Char) :
    c ∈ joinCommaSpace items →
    (∃ s ∈ items, c ∈ s) ∨ c = ',' ∨ c = ' ' := by
  induction items with
  | nil => intro hc; simp [joinCommaSpace] at hc
  | cons s items2 ih =>
    intro hc
    cases items2 with
    | nil => exact Or.inl ⟨s, List.mem_cons_self _ _, hc⟩
    | cons s2 rest =>
      have hc' : c ∈ s ++ ',' :: ' ' :: joinCommaSpace (s2 :: rest) := hc
      rcases List.mem_append.mp hc' with h1 | h2
      · exact Or.inl ⟨s, List.mem_cons_self _ _, h1⟩
      · rcases List.mem_cons.mp h2 with h3 | h4
        · exact Or.inr (Or.inl h3)
        · rcases List.mem_cons.mp h4 with h5 | h6
          · exact Or.inr (Or.inr h5)
          · rcases ih h6 with ⟨u, hu, hcu⟩ | h7
            · exact Or.inl ⟨u, List.mem_cons_of_mem s hu, hcu⟩
            · exact Or.inr h7

/-- The characters of a quoted identifier are the quote or characters
of the name. -/
theorem mem_quoteIdent (s : String) (c : Char) (hc : c ∈ quoteIdent s) :
    c = '"' ∨ c ∈ s.data := by
  rcases List.mem_cons.mp hc with h | h
  · exact Or.inl h
  · rcases List.mem_append.mp h with h1 | h2
    · exact Or.inr h1
    · exact Or.inl (List.mem_singleton.mp h2)

/-- A quoted identifier contains no newline. -/
theorem quoteIdent_no_nl (s : String) (hs : isIdentL s.data = true) :
    ∀ c ∈ quoteIdent s, c ≠ '\n' := by
  intro c hc
  rcases mem_quoteIdent s c hc with h | h
  · rw [h]; decide
  · exact ident_no_nl s.data hs c h

/-- A quoted identifier contains no comma. -/
theorem quoteIdent_no_comma (s : String) (hs : isIdentL s.data = true) :
    ∀ c ∈ quoteIdent s, c ≠ ',' := by
  intro c hc
  rcases mem_quoteIdent s c hc with h | h
  · rw [h]; decide
  · exact ident_no_comma s.data hs c h

/-- The aliased `policy_id` item is a well-formed select item. -/
theorem selectItemOK_alias (ct : String) (hct : isIdentL ct.data = true) :
    selectItemOK (quoteIdent ct ++ (".policy_id as policy_id").data) = true := by
  have hshape : quoteIdent ct ++ (".policy_id as policy_id").data =
      '"' :: (ct.data ++ '"' :: (".policy_id as policy_id").data) := by
    simp [quoteIdent]
  rw [hshape, selectItemOK, readQuotedIdent_quoted ct.data hct]
  simp

/-- A quoted feature column is a well-formed select item. -/
theorem selectItemOK_quoted (c : String) (hc : isIdentL c.data = true) :
    selectItemOK (quoteIdent c) = true := by
  have hshape : quoteIdent c = '"' :: (c.data ++ '"' :: []) := by
    simp [quoteIdent]
  rw [hshape, selectItemOK, readQuotedIdent_quoted c.data hc]
  simp

/-- All declared dtype-dictionary columns are identifiers. -/
theorem keys_ident :
    ∀ c ∈ claims_dtypes_keys ++ customers_dtypes_keys,
      isIdentL c.data = true := by decide

/-- `feature_columns` only lists columns of the two dataframes. -/
theorem feature_columns_subset (cc uc : List String) (c : String)
    (hc : c ∈ feature_columns cc uc) : c ∈ cc ∨ c ∈ uc := by
  rcases List.mem_append.mp hc with h | h
  · exact Or.inl (List.mem_filter.mp h).1
  · exact Or.inr (List.mem_filter.mp h).1

/-- Columns drawn from the declared dtype dictionaries give an
identifier for every feature column. -/
theorem feature_columns_ident (cc uc : List String)
    (hcc : ∀ c ∈ cc, c ∈ claims_dtypes_keys ++ customers_dtypes_keys)
    (huc : ∀ c ∈ uc, c ∈ claims_dtypes_keys ++ customers_dtypes_keys) :
    ∀ c ∈ feature_columns cc uc, isIdentL c.data = true := by
  intro c hc
  rcases feature_columns_subset cc uc c hc with h | h
  · exact keys_ident c (hcc c h)
  · exact keys_ident c (huc c h)

/-- The assembled select string contains no newline. -/
theorem feature_columns_string_no_nl (ct : String) (cc uc : List String)
    (hct : isIdentL ct.data = true)
    (hcols : ∀ c ∈ feature_columns cc uc, isIdentL c.data = true) :
    ∀ c ∈ feature_columns_string ct cc uc, c ≠ '\n' := by
  intro c hc
  have hc' : c ∈ quoteIdent ct ++ (".policy_id as policy_id, ").data ++
      joinCommaSpace ((feature_columns cc uc).map quoteIdent) := hc
  rcases List.mem_append.mp hc' with h1 | h2
  · rcases List.mem_append.mp h1 with h3 | h4
    · exact quoteIdent_no_nl ct hct c h3
    · exact (by decide : ∀ x ∈ (".policy_id as policy_id, ").data, x ≠ '\n') c h4
  · rcases mem_joinCommaSpace _ c h2 with ⟨s, hs, hcs⟩ | h5
    · rcases List.mem_map.mp hs with ⟨col, hcol, rfl⟩
      exact quoteIdent_no_nl col (hcols col hcol) c hcs
    · rcases h5 with h6 | h6 <;> (rw [h6]; decide)

/-- The select line contains no newline. -/
theorem select_line_no_nl (ct : String) (cc uc : List String)
    (hct : isIdentL ct.data = true)
    (hcols : ∀ c ∈ feature_columns cc uc, isIdentL c.data = true) :
    ∀ c ∈ ("SELECT DISTINCT ").data ++ feature_columns_string ct cc uc,
      c ≠ '\n' := by
  intro c hc
  rcases List.mem_append.mp hc with h | h
  · exact (by decide : ∀ x ∈ ("SELECT DISTINCT ").data, x ≠ '\n') c h
  · exact feature_columns_string_no_nl ct cc uc hct hcols c h

/-- The from/join line contains no newline. -/
theorem from_line_no_nl (ct cu : String) (hct : isIdentL ct.data = true)
    (hcu : isIdentL cu.data = true) :
    ∀ c ∈ ("FROM ").data ++ quoteIdent ct ++ (" LEFT JOIN ").data ++
      quoteIdent cu ++ [' '], c ≠ '\n' := by
  intro c hc
  rcases List.mem_append.mp hc with h | h
  · rcases List.mem_append.mp h with h | h
    · rcases List.mem_append.mp h with h | h
      · rcases List.mem_append.mp h with h | h
        · exact (by decide : ∀ x ∈ ("FROM ").data, x ≠ '\n') c h
        · exact quoteIdent_no_nl ct hct c h
      · exact (by decide : ∀ x ∈ (" LEFT JOIN ").data, x ≠ '\n') c h
    · exact quoteIdent_no_nl cu hcu c h
  · rw [List.mem_singleton.mp h]; decide

/-- The on line contains no newline. -/
theorem on_line_no_nl (ct cu : String) (hct : isIdentL ct.data = true)
    (hcu : isIdentL cu.data = true) :
    ∀ c ∈ ("ON ").data ++ quoteIdent ct ++ (".policy_id = ").data ++
      quoteIdent cu ++ (".policy_id").data, c ≠ '\n' := by
  intro c hc
  rcases List.mem_append.mp hc with h | h
  · rcases List.mem_append.mp h with h | h
    · rcases List.mem_append.mp h with h | h
      · rcases List.mem_append.mp h with h | h
        · exact (by decide : ∀ x ∈ ("ON ").data, x ≠ '\n') c h
        · exact quoteIdent_no_nl ct hct c h
      · exact (by decide : ∀ x ∈ (".policy_id = ").data, x ≠ '\n') c h
    · exact quoteIdent_no_nl cu hcu c h
  · exact (by decide : ∀ x ∈ (".policy_id").data, x ≠ '\n') c h

/-- The assembled select line passes the select-clause check when the
feature-column list is nonempty. -/
theorem selectClauseOK_line (ct : String) (cc uc : List String)
    (hct : isIdentL ct.data = true)
    (hcols : ∀ c ∈ feature_columns cc uc, isIdentL c.data = true)
    (hne : feature_columns cc uc ≠ []) :
    selectClauseOK (("SELECT DISTINCT ").data ++
      feature_columns_string ct cc uc) = true := by
  have hXnc : ∀ c ∈ quoteIdent ct ++ (".policy_id as policy_id").data,
      c ≠ ',' := by
    intro c hc
    rcases List.mem_append.mp hc with h | h
    · exact quoteIdent_no_comma ct hct c h
    · exact (by decide : ∀ x ∈ (".policy_id as policy_id").data, x ≠ ',') c h
  have hitems : ∀ s ∈ (feature_columns cc uc).map quoteIdent,
      ∀ c ∈ s, c ≠ ',' := by
    intro s hs c hc
    rcases List.mem_map.mp hs with ⟨col, hcol, rfl⟩
    exact quoteIdent_no_comma col (hcols col hcol) c hc
  have hmapne : (feature_columns cc uc).map quoteIdent ≠ [] := by
    simpa using hne
  have hfcs : feature_columns_string ct cc uc =
      (quoteIdent ct ++ (".policy_id as policy_id").data) ++
        ',' :: ' ' :: joinCommaSpace ((feature_columns cc uc).map quoteIdent) := by
    rw [feature_columns_string]
    rw [show (".policy_id as policy_id, ").data =
      (".policy_id as policy_id").data ++ [',', ' '] from rfl]
    simp [List.append_assoc]
  simp only [selectClauseOK, dropLit_append]
  rw [hfcs, splitCommaSpace_append _ _ hXnc,
    splitCommaSpace_join _ hmapne hitems]
  rw [List.all_cons, Bool.and_eq_true]
  constructor
  · exact selectItemOK_alias ct hct
  · rw [List.all_eq_true]
    intro s hs
    rcases List.mem_map.mp hs with ⟨col, hcol, rfl⟩
    exact selectItemOK_quoted col (hcols col hcol)

/-- The assembled from/join line passes the from-clause check. -/
theorem fromClauseOK_line (ct cu : String) (hct : isIdentL ct.data = true)
    (hcu : isIdentL cu.data = true) :
    fromClauseOK (("FROM ").data ++ quoteIdent ct ++ (" LEFT JOIN ").data ++
      quoteIdent cu ++ [' ']) = true := by
  have hshape : ("FROM ").data ++ quoteIdent ct ++ (" LEFT JOIN ").data ++
      quoteIdent cu ++ [' '] =
      ("FROM ").data ++ ('"' :: (ct.data ++ '"' :: ((" LEFT JOIN ").data ++
        ('"' :: (cu.data ++ '"' :: [' ']))))) := by
    simp [quoteIdent]
  rw [hshape]
  simp only [fromClauseOK, dropLit_append,
    readQuotedIdent_quoted ct.data hct, readQuotedIdent_quoted cu.data hcu]
  simp

/-- The assembled on line passes the on-clause check. -/
theorem onClauseOK_line (ct cu : String) (hct : isIdentL ct.data = true)
    (hcu : isIdentL cu.data = true) :
    onClauseOK (("ON ").data ++ quoteIdent ct ++ (".policy_id = ").data ++
      quoteIdent cu ++ (".policy_id").data) = true := by
  have hshape : ("ON ").data ++ quoteIdent ct ++ (".policy_id = ").data ++
      quoteIdent cu ++ (".policy_id").data =
      ("ON ").data ++ ('"' :: (ct.data ++ '"' :: ((".policy_id = ").data ++
        ('"' :: (cu.data ++ '"' :: (".policy_id").data))))) := by
    simp [quoteIdent]
  rw [hshape]
  simp only [onClauseOK, dropLit_append,
    readQuotedIdent_quoted ct.data hct, readQuotedIdent_quoted cu.data hcu]
  simp

/-- Decomposition of the assembled query into its four lines. -/
theorem query_string_lines (ct cu : String) (cc uc : List String) :
    query_string ct cu cc uc =
      '\n' :: ((("SELECT DISTINCT ").data ++ feature_columns_string ct cc uc) ++
        '\n' :: ((("FROM ").data ++ quoteIdent ct ++ (" LEFT JOIN ").data ++
            quoteIdent cu ++ [' ']) ++
          '\n' :: ((("ON ").data ++ quoteIdent ct ++ (".policy_id = ").data ++
              quoteIdent cu ++ (".policy_id").data) ++ ['\n']))) := by
  rw [query_string]
  rw [show ("\nSELECT DISTINCT ").data =
    '\n' :: ("SELECT DISTINCT ").data from rfl]
  rw [show ("\nFROM ").data = '\n' :: ("FROM ").data from rfl]
  rw [show ("\nON ").data = '\n' :: ("ON ").data from rfl]
  rw [show ((" ") : String).data = [' '] from rfl]
  rw [show (".policy_id\n").data = (".policy_id").data ++ ['\n'] from rfl]
  simp [List.append_assoc]

end FraudDetection

/-- Claim C3 (amended): for table names that are identifiers and
column sets drawn from the declared dtype dictionaries, the assembled
Athena query is syntactically valid — empty framing lines around a
`SELECT DISTINCT` line whose comma-separated items are double-quoted
identifiers (the first carrying the `policy_id` alias), a
`FROM ... LEFT JOIN ...` line, and an `ON` line equating the two
tables' `policy_id` columns, with no dangling comma or empty select
item — provided the two column sets are not equal (nonempty symmetric
difference). -/
theorem C3_query_wellformed (ct cu : String) (cc uc : List String)
    (hct : FraudDetection.isIdentL ct.data = true)
    (hcu : FraudDetection.isIdentL cu.data = true)
    (hcc : ∀ c ∈ cc, c ∈ FraudDetection.claims_dtypes_keys ++
      FraudDetection.customers_dtypes_keys)
    (huc : ∀ c ∈ uc, c ∈ FraudDetection.claims_dtypes_keys ++
      FraudDetection.customers_dtypes_keys)
    (hne : FraudDetection.feature_columns cc uc ≠ []) :
    FraudDetection.queryOK (FraudDetection.query_string ct cu cc uc) = true := by
  have hcols := FraudDetection.feature_columns_ident cc uc hcc huc
  have hA := FraudDetection.select_line_no_nl ct cc uc hct hcols
  have hB := FraudDetection.from_line_no_nl ct cu hct hcu
  have hC := FraudDetection.on_line_no_nl ct cu hct hcu
  have hsplit : FraudDetection.splitNl (FraudDetection.query_string ct cu cc uc) =
      [[],
       ("SELECT DISTINCT ").data ++
         FraudDetection.feature_columns_string ct cc uc,
       ("FROM ").data ++ FraudDetection.quoteIdent ct ++
         (" LEFT JOIN ").data ++ FraudDetection.quoteIdent cu ++ [' '],
       ("ON ").data ++ FraudDetection.quoteIdent ct ++
         (".policy_id = ").data ++ FraudDetection.quoteIdent cu ++
         (".policy_id").data,
       []] := by
    rw [FraudDetection.query_string_lines, FraudDetection.splitNl_cons_nl,
      FraudDetection.splitNl_append _ _ hA, FraudDetection.splitNl_append _ _ hB,
      FraudDetection.splitNl_append _ _ hC]
    rfl
  unfold FraudDetection.queryOK
  rw [hsplit]
  dsimp only
  rw [FraudDetection.selectClauseOK_line ct cc uc hct hcols hne,
    FraudDetection.fromClauseOK_line ct cu hct hcu,
    FraudDetection.onClauseOK_line ct cu hct hcu]
  rfl

/-- Witness for C3 at concrete inputs: tables `claims`/`customers` and
small column sets from the dtype dictionaries with a nonempty
symmetric difference. -/
theorem C3_query_wellformed_witness :
    FraudDetection.queryOK (FraudDetection.query_string "claims" "customers"
      ["policy_id", "fraud", "event_time"]
      ["policy_id", "customer_age", "event_time"]) = true :=
  C3_query_wellformed "claims" "customers"
    ["policy_id", "fraud", "event_time"]
    ["policy_id", "customer_age", "event_time"]
    (by decide) (by decide) (by decide) (by decide) (by decide)

/-- Claim C3 counterexample: when the two column sets are equal (both
`["policy_id", "event_time"]`, columns present in both dtype
dictionaries), the symmetric difference is empty, the select string
keeps its hard-coded trailing `", "`, and the query has a dangling
comma (an empty trailing select item), so it is not well-formed. -/
theorem C3_counterexample_equal_sets :
    FraudDetection.feature_columns ["policy_id", "event_time"]
      ["policy_id", "event_time"] = [] ∧
    FraudDetection.feature_columns_string "claims" ["policy_id", "event_time"]
      ["policy_id", "event_time"] =
      ("\"claims\".policy_id as policy_id, ").data ∧
    FraudDetection.queryOK (FraudDetection.query_string "claims" "customers"
      ["policy_id", "event_time"] ["policy_id", "event_time"]) = false := by
  refine ⟨by decide, by decide, by decide⟩

/-- Claim C8: the select list is the claims table's `policy_id` alias
followed by exactly the symmetric difference of the two column sets —
a column is listed iff it appears in exactly one of the two
dataframes, a listed column appears exactly once, and a column present
in both dataframes (such as `event_time` or `policy_id`) is excluded;
the select string is the alias item followed by the joined quoted
`feature_columns`. -/
theorem C8_select_columns (ct : String) (cc uc : List String)
    (hcc : cc.Nodup) (huc : uc.Nodup) :
    (∀ c, c ∈ FraudDetection.feature_columns cc uc ↔
      ((c ∈ cc ∧ c ∉ uc) ∨ (c ∈ uc ∧ c ∉ cc))) ∧
    (∀ c ∈ FraudDetection.feature_columns cc uc,
      (FraudDetection.feature_columns cc uc).count c = 1) ∧
    (∀ c, c ∈ cc → c ∈ uc → c ∉ FraudDetection.feature_columns cc uc) ∧
    FraudDetection.feature_columns_string ct cc uc =
      FraudDetection.quoteIdent ct ++ (".policy_id as policy_id, ").data ++
        FraudDetection.joinCommaSpace
          ((FraudDetection.feature_columns cc uc).map
            FraudDetection.quoteIdent) := by
  have hmem : ∀ c, c ∈ FraudDetection.feature_columns cc uc ↔
      ((c ∈ cc ∧ c ∉ uc) ∨ (c ∈ uc ∧ c ∉ cc)) := by
    intro c
    unfold FraudDetection.feature_columns
    simp [List.mem_append, List.mem_filter]
  have hnodup : (FraudDetection.feature_columns cc uc).Nodup := by
    unfold FraudDetection.feature_columns
    refine List.Nodup.append (hcc.filter _) (huc.filter _) ?_
    intro c h1 h2
    have h1' := List.mem_filter.mp h1
    have h2' := List.mem_filter.mp h2
    exact (of_decide_eq_true h1'.2) h2'.1
  refine ⟨hmem, ?_, ?_, rfl⟩
  · intro c hc
    exact List.count_eq_one_of_mem hnodup hc
  · intro c h1 h2 hmem2
    rcases (hmem c).mp hmem2 with ⟨-, h⟩ | ⟨-, h⟩
    · exact h h2
    · exact h h1

/-- Witness for C8 at concrete column sets drawn from the dtype
dictionaries: `fraud` (claims-only) is selected while `event_time`
(present in both) is excluded. -/
theorem C8_select_columns_witness :
    "fraud" ∈ FraudDetection.feature_columns
      ["policy_id", "fraud", "event_time"]
      ["policy_id", "customer_age", "event_time"] ∧
    "event_time" ∉ FraudDetection.feature_columns
      ["policy_id", "fraud", "event_time"]
      ["policy_id", "customer_age", "event_time"] := by
  have h := C8_select_columns "claims" ["policy_id", "fraud", "event_time"]
    ["policy_id", "customer_age", "event_time"] (by decide) (by decide)
  constructor
  · exact (h.1 "fraud").mpr (Or.inl ⟨by decide, by decide⟩)
  · exact h.2.2.1 "event_time" (by decide) (by decide)
